import Mathlib

/-!
Shallow embedding of the Futaba 8-MD-06INK VFD display driver
(src/ftb-8-md.c, src/include/ftb-8-md.h).

Modelling conventions:
- Bytes are `Nat` values; machine-level truncation is written with explicit
  `% 2^w` where the C code performs it (bit-fields, integer casts).
- The SPI handle is `Option Unit`: `none` models a NULL handle.
- C strings are `Option (List Nat)`: `none` models a NULL pointer, and the
  list holds the bytes of the string up to (not including) the NUL
  terminator, so `List.length` plays the role of `strlen`.
- Collaborator effects (GPIO, delays, bus binding, SPI transmissions) are
  recorded in an event trace; the outcome of each collaborator call is
  supplied by an oracle, so failure-propagation behaviour can be stated.
  A transmission that the transport reports as failed still appears in the
  trace: the packet was handed to `spi_device_transmit`.
-/

namespace Ftb8md

/-- Result codes (esp_err_t): success, ESP_ERR_INVALID_ARG, or a transport
failure with an arbitrary nonzero code. -/
inductive EspErr where
  | ok
  | invalidArg
  | transportFail (code : Nat)
deriving DecidableEq, Repr

/-- Observable calls made to the collaborators (GPIO driver, time source,
SPI bus transport). -/
inductive Event where
  | gpioConfigure (pin : Int)
  | gpioSetLevel (pin : Int) (level : Nat)
  | delayMs (ms : Nat)
  | busAddDevice
  | txPacket (bytes : List Nat)
deriving DecidableEq, Repr

/-- The observable state threaded through every driver call: the trace of
collaborator events and the number of transmissions attempted so far (the
index used to query the transmission oracle). -/
structure DriverState where
  events : List Event
  txCount : Nat
deriving DecidableEq, Repr

/-- Number of digits on the display (FTB8MD_NUM_DIGITS). -/
def FTB8MD_NUM_DIGITS : Nat := 8

/-- Maximum dimming level (FTB8MD_MAX_DIMMING). -/
def FTB8MD_MAX_DIMMING : Nat := 240

/-- DCRAM write command code 001 (CMD_PREFIX_DCRAM in the source). -/
def CMD_PFX_DCRAM : Nat := 0x01

/-- CGRAM write command code 010 (CMD_PREFIX_CGRAM in the source). -/
def CMD_PFX_CGRAM : Nat := 0x02

/-- ADRAM write command code 011 (CMD_PREFIX_ADRAM in the source). -/
def CMD_PFX_ADRAM : Nat := 0x03

/-- Number-of-digits setting command. -/
def CMD_DIGIT_SET : Nat := 0xE0

/-- Dimming level setting command. -/
def CMD_DIMMING : Nat := 0xE4

/-- Display on command. -/
def CMD_DISPLAY_ON : Nat := 0xE8

/-- Display off command. -/
def CMD_DISPLAY_OFF : Nat := 0xEA

/-- Normal mode command. -/
def CMD_MODE_NORMAL : Nat := 0xEC

/-- Standby mode command. -/
def CMD_MODE_STANDBY : Nat := 0xED

/-- First byte of a DCRAM write: digit field in bits 0-4 (digit:5),
command code in bits 5-7 (3 bits). -/
def dcramByte1 (digit : Nat) : Nat := (CMD_PFX_DCRAM % 8) * 32 + digit % 32

/-- First byte of a CGRAM write: addr field in bits 0-2 (addr:3), reserved
bits 3-4 zero, command code in bits 5-7. -/
def cgramByte1 (addr : Nat) : Nat := (CMD_PFX_CGRAM % 8) * 32 + addr % 8

/-- First byte of an ADRAM write: digit field in bits 0-4, command code in
bits 5-7 (set through the field the header names reserved). -/
def adramByte1 (digit : Nat) : Nat := (CMD_PFX_ADRAM % 8) * 32 + digit % 32

/-- Second byte of an ADRAM write: pin field in bits 0-3 (pin:4), reserved
bits 4-7 zero. -/
def adramByte2 (pin : Nat) : Nat := pin % 16

/-- The bus transport collaborator: appends the packet to the trace and
returns the oracle's verdict for this transmission index. -/
def spi_device_transmit (o : Nat → EspErr) (pkt : List Nat) (s : DriverState) :
    EspErr × DriverState :=
  (o s.txCount, ⟨s.events ++ [Event.txPacket pkt], s.txCount + 1⟩)

/-- ftb8md_send_command: validates handle and length, then transmits the
first len bytes of the 9-byte raw command buffer. -/
def ftb8md_send_command (o : Nat → EspErr) (handle : Option Unit)
    (cmd : List Nat) (len : Nat) (s : DriverState) : EspErr × DriverState :=
  if handle = none ∨ len = 0 then (EspErr.invalidArg, s)
  else spi_device_transmit o (cmd.take len) s

/-- ftb8md_show_string: DCRAM write of a string starting at a digit
position, truncated to the remaining display width. -/
def ftb8md_show_string (o : Nat → EspErr) (handle : Option Unit)
    (digit : Int) (str : Option (List Nat)) (s : DriverState) :
    EspErr × DriverState :=
  if handle = none ∨ str = none then (EspErr.invalidArg, s)
  else if digit < 0 ∨ (FTB8MD_NUM_DIGITS : Int) ≤ digit then (EspErr.invalidArg, s)
  else
    let sb := str.getD []
    let max_chars := FTB8MD_NUM_DIGITS - digit.toNat
    let str_len := sb.length
    let chars_to_write := if str_len < max_chars then str_len else max_chars
    let raw := dcramByte1 digit.toNat ::
      (sb.take chars_to_write ++ List.replicate (8 - chars_to_write) 0)
    ftb8md_send_command o handle raw (1 + chars_to_write) s

/-- ftb8md_set_dimming: control packet with the level saturated at the
device maximum. -/
def ftb8md_set_dimming (o : Nat → EspErr) (handle : Option Unit)
    (level : Nat) (s : DriverState) : EspErr × DriverState :=
  if handle = none then (EspErr.invalidArg, s)
  else
    let arg := if FTB8MD_MAX_DIMMING < level then FTB8MD_MAX_DIMMING else level
    ftb8md_send_command o handle (CMD_DIMMING :: arg :: List.replicate 7 0) 2 s

/-- ftb8md_enter_standby: control packet selecting standby or normal mode;
the argument byte stays at its zero initialisation. -/
def ftb8md_enter_standby (o : Nat → EspErr) (handle : Option Unit)
    (standby : Bool) (s : DriverState) : EspErr × DriverState :=
  if handle = none then (EspErr.invalidArg, s)
  else
    let op := if standby then CMD_MODE_STANDBY else CMD_MODE_NORMAL
    ftb8md_send_command o handle (op :: 0 :: List.replicate 7 0) 2 s

/-- ftb8md_set_display_power: control packet turning the display on or
off; the argument byte stays at its zero initialisation. The C parameter
named on is rendered power_on here. -/
def ftb8md_set_display_power (o : Nat → EspErr) (handle : Option Unit)
    (power_on : Bool) (s : DriverState) : EspErr × DriverState :=
  if handle = none then (EspErr.invalidArg, s)
  else
    let op := if power_on then CMD_DISPLAY_ON else CMD_DISPLAY_OFF
    ftb8md_send_command o handle (op :: 0 :: List.replicate 7 0) 2 s

/-- ftb8md_set_dot: ADRAM write controlling the decimal point (pin E0) of
one digit. -/
def ftb8md_set_dot (o : Nat → EspErr) (handle : Option Unit)
    (digit : Int) (dot_on : Bool) (s : DriverState) : EspErr × DriverState :=
  if handle = none then (EspErr.invalidArg, s)
  else if digit < 0 ∨ (FTB8MD_NUM_DIGITS : Int) ≤ digit then (EspErr.invalidArg, s)
  else
    let pin := if dot_on then 0x01 else 0x00
    let raw := adramByte1 digit.toNat :: adramByte2 pin :: List.replicate 7 0
    ftb8md_send_command o handle raw 2 s

/-- ftb8md_set_segment: single-byte DCRAM write with raw segment data. -/
def ftb8md_set_segment (o : Nat → EspErr) (handle : Option Unit)
    (digit : Int) (segments : Nat) (s : DriverState) : EspErr × DriverState :=
  if handle = none then (EspErr.invalidArg, s)
  else if digit < 0 ∨ (FTB8MD_NUM_DIGITS : Int) ≤ digit then (EspErr.invalidArg, s)
  else
    let raw := dcramByte1 digit.toNat :: segments :: List.replicate 7 0
    ftb8md_send_command o handle raw 2 s

/-- Loop body of ftb8md_clear_display: issue a dot-off for each listed
digit, stopping at the first failure. -/
def clearDotsLoop (o : Nat → EspErr) (handle : Option Unit) :
    List Nat → DriverState → EspErr × DriverState
  | [], s => (EspErr.ok, s)
  | i :: rest, s =>
    let r := ftb8md_set_dot o handle (Int.ofNat i) false s
    if r.1 ≠ EspErr.ok then r else clearDotsLoop o handle rest r.2

/-- ftb8md_clear_display: write 8 spaces starting at digit 0, then turn
off each decimal point in digit order, aborting on the first failure. -/
def ftb8md_clear_display (o : Nat → EspErr) (handle : Option Unit)
    (s : DriverState) : EspErr × DriverState :=
  if handle = none then (EspErr.invalidArg, s)
  else
    let raw := dcramByte1 0 :: List.replicate FTB8MD_NUM_DIGITS 0x20
    let r := ftb8md_send_command o handle raw (1 + FTB8MD_NUM_DIGITS) s
    if r.1 ≠ EspErr.ok then r
    else clearDotsLoop o handle (List.range FTB8MD_NUM_DIGITS) r.2

/-- ftb8md_write_custom_char: CGRAM write of a 5-byte glyph pattern to one
of the 8 custom-character slots. -/
def ftb8md_write_custom_char (o : Nat → EspErr) (handle : Option Unit)
    (char_index : Int) (grid_data : Option (List Nat)) (s : DriverState) :
    EspErr × DriverState :=
  if handle = none ∨ grid_data = none then (EspErr.invalidArg, s)
  else if char_index < 0 ∨ 7 < char_index then (EspErr.invalidArg, s)
  else
    let g := grid_data.getD []
    let raw := cgramByte1 char_index.toNat :: (g.take 5 ++ List.replicate 3 0)
    ftb8md_send_command o handle raw 6 s

/-- ftb8md_set_addressed_char: single-byte DCRAM write whose payload is
the CGRAM index, rendering the referenced custom glyph at the digit. -/
def ftb8md_set_addressed_char (o : Nat → EspErr) (handle : Option Unit)
    (digit : Int) (char_index : Int) (s : DriverState) : EspErr × DriverState :=
  if handle = none then (EspErr.invalidArg, s)
  else if digit < 0 ∨ (FTB8MD_NUM_DIGITS : Int) ≤ digit then (EspErr.invalidArg, s)
  else if char_index < 0 ∨ 7 < char_index then (EspErr.invalidArg, s)
  else
    let raw := dcramByte1 digit.toNat :: char_index.toNat % 256 :: List.replicate 7 0
    ftb8md_send_command o handle raw 2 s

/-- Outcomes of the collaborator calls made during registration, plus the
transmission oracle shared with the rest of the driver. -/
structure RegisterEnv where
  gpio_config_result : EspErr
  bus_add_result : EspErr
  tx : Nat → EspErr

/-- Registration tail after the optional reset pulse: bind the SPI device,
then apply the default configuration (digit count, dimming, display-on),
whose transmission failures are logged but never abort registration. The
display-on packet reuses the command buffer of the digit-count step, so
its argument byte is still FTB8MD_NUM_DIGITS - 1. -/
def registerAfterReset (env : RegisterEnv) (s : DriverState) :
    Option Unit × DriverState :=
  let s1 : DriverState := ⟨s.events ++ [Event.busAddDevice], s.txCount⟩
  if env.bus_add_result ≠ EspErr.ok then (none, s1)
  else
    let handle : Option Unit := some ()
    let cmd1 := CMD_DIGIT_SET :: (FTB8MD_NUM_DIGITS - 1) :: List.replicate 7 0
    let r1 := ftb8md_send_command env.tx handle cmd1 2 s1
    let r2 := ftb8md_set_dimming env.tx handle FTB8MD_MAX_DIMMING r1.2
    let cmd3 := CMD_DISPLAY_ON :: (FTB8MD_NUM_DIGITS - 1) :: List.replicate 7 0
    let r3 := ftb8md_send_command env.tx handle cmd3 2 r2.2
    (handle, r3.2)

/-- ftb8md_device_register: optional hardware reset pulse (reset low,
10 ms, reset high, 10 ms) when a reset pin is connected, then bind the SPI
device and apply the default configuration. -/
def ftb8md_device_register (env : RegisterEnv) (reset_pin : Int)
    (s : DriverState) : Option Unit × DriverState :=
  if 0 ≤ reset_pin then
    let s1 : DriverState := ⟨s.events ++ [Event.gpioConfigure reset_pin], s.txCount⟩
    if env.gpio_config_result ≠ EspErr.ok then (none, s1)
    else
      let s2 : DriverState :=
        ⟨s1.events ++ [Event.gpioSetLevel reset_pin 0, Event.delayMs 10,
          Event.gpioSetLevel reset_pin 1, Event.delayMs 10], s1.txCount⟩
      registerAfterReset env s2
  else registerAfterReset env s

/-- The packets handed to the transport within a trace fragment. -/
def txPayloads (evs : List Event) : List (List Nat) :=
  evs.filterMap fun e =>
    match e with
    | Event.txPacket p => some p
    | _ => none

/-- The packets a call handed to the transport: the transmissions recorded
in the final state beyond those already present in the initial state. -/
def sentPackets (s sNew : DriverState) : List (List Nat) :=
  txPayloads (sNew.events.drop s.events.length)

/-- Decode the glyph-slot index from a CGRAM packet: bits 0-2 of byte 1. -/
def cgramDecodeIndex (pkt : List Nat) : Nat := pkt.headD 0 % 8

/-- Decode the 5 pattern bytes from a CGRAM packet: bytes 2 to 6. -/
def cgramDecodePattern (pkt : List Nat) : List Nat := (pkt.drop 1).take 5

/-! Helper lemmas shared by the claim theorems. -/

lemma ite_min (a b : Nat) : (if a < b then a else b) = min a b := by
  by_cases h : a < b <;> simp [h] <;> omega

lemma take_padded (l : List Nat) (m pad : Nat) (hm : m ≤ l.length) :
    (l.take m ++ List.replicate pad 0).take m = l.take m := by
  have hlen : (l.take m).length = m := by
    simp only [List.length_take]
    omega
  calc (l.take m ++ List.replicate pad 0).take m
      = (l.take m ++ List.replicate pad 0).take (l.take m).length := by rw [hlen]
    _ = l.take m := List.take_left _ _

lemma raw_take_dcram (b : Nat) (l : List Nat) (m pad : Nat) (hm : m ≤ l.length) :
    (b :: (l.take m ++ List.replicate pad 0)).take (1 + m) = b :: l.take m := by
  rw [Nat.add_comm, List.take_succ_cons, take_padded l m pad hm]

lemma sentPackets_self (s : DriverState) : sentPackets s s = [] := by
  simp [sentPackets, txPayloads, List.drop_length]

lemma sentPackets_append (s : DriverState) (evs : List Event) (c : Nat) :
    sentPackets s ⟨s.events ++ evs, c⟩ = txPayloads evs := by
  simp [sentPackets, List.drop_left]

/-- Behaviour of ftb8md_show_string on a non-null handle, non-null string
and valid digit. -/
lemma show_string_run (o : Nat → EspErr) (digit : Int) (str : List Nat)
    (s : DriverState) (h0 : 0 ≤ digit) (h7 : digit ≤ 7) :
    ftb8md_show_string o (some ()) digit (some str) s =
      (o s.txCount,
       ⟨s.events ++ [Event.txPacket (dcramByte1 digit.toNat ::
          str.take (min str.length (8 - digit.toNat)))], s.txCount + 1⟩) := by
  have hcond : ¬(digit < 0 ∨ ((FTB8MD_NUM_DIGITS : Nat) : Int) ≤ digit) := by
    unfold FTB8MD_NUM_DIGITS
    push_cast
    omega
  have h1 : ¬((some () : Option Unit) = none ∨ (some str : Option (List Nat)) = none) := by
    simp
  by_cases hl : str.length < FTB8MD_NUM_DIGITS - digit.toNat
  · have hmin : min str.length (8 - digit.toNat) = str.length := by
      unfold FTB8MD_NUM_DIGITS at hl
      omega
    simp only [ftb8md_show_string, ftb8md_send_command, spi_device_transmit,
      Option.getD_some, h1, hcond, hl, if_false, if_true]
    rw [hmin, raw_take_dcram _ _ _ _ (le_refl str.length)]
    have h2 : ¬((some () : Option Unit) = none ∨ 1 + str.length = 0) := by
      simp
    simp [h2]
  · have hmin : min str.length (8 - digit.toNat) = 8 - digit.toNat := by
      unfold FTB8MD_NUM_DIGITS at hl
      omega
    have hm : 8 - digit.toNat ≤ str.length := by
      unfold FTB8MD_NUM_DIGITS at hl
      omega
    have hl8 : ¬str.length < 8 - digit.toNat := by
      unfold FTB8MD_NUM_DIGITS at hl
      exact hl
    have hcond8 : ¬(digit < 0 ∨ ((8 : Nat) : Int) ≤ digit) := by
      push_cast
      omega
    have h2 : ¬((some () : Option Unit) = none ∨ 1 + (8 - digit.toNat) = 0) := by
      simp
    simp only [ftb8md_show_string, ftb8md_send_command, spi_device_transmit,
      Option.getD_some, FTB8MD_NUM_DIGITS, h1, hcond8, hl8, h2, if_false, if_true]
    rw [hmin, raw_take_dcram _ _ _ _ hm]

/-- Behaviour of ftb8md_set_dimming on a non-null handle. -/
lemma set_dimming_run (o : Nat → EspErr) (level : Nat) (s : DriverState) :
    ftb8md_set_dimming o (some ()) level s =
      (o s.txCount,
       ⟨s.events ++ [Event.txPacket [CMD_DIMMING,
          if FTB8MD_MAX_DIMMING < level then FTB8MD_MAX_DIMMING else level]],
        s.txCount + 1⟩) := by
  simp [ftb8md_set_dimming, ftb8md_send_command, spi_device_transmit, List.take]

/-- Behaviour of ftb8md_enter_standby on a non-null handle. -/
lemma enter_standby_run (o : Nat → EspErr) (standby : Bool) (s : DriverState) :
    ftb8md_enter_standby o (some ()) standby s =
      (o s.txCount,
       ⟨s.events ++ [Event.txPacket
          [if standby then CMD_MODE_STANDBY else CMD_MODE_NORMAL, 0]],
        s.txCount + 1⟩) := by
  simp [ftb8md_enter_standby, ftb8md_send_command, spi_device_transmit, List.take]

/-- Behaviour of ftb8md_set_display_power on a non-null handle. -/
lemma set_display_power_run (o : Nat → EspErr) (power_on : Bool) (s : DriverState) :
    ftb8md_set_display_power o (some ()) power_on s =
      (o s.txCount,
       ⟨s.events ++ [Event.txPacket
          [if power_on then CMD_DISPLAY_ON else CMD_DISPLAY_OFF, 0]],
        s.txCount + 1⟩) := by
  simp [ftb8md_set_display_power, ftb8md_send_command, spi_device_transmit, List.take]

/-- Behaviour of ftb8md_set_dot on a non-null handle and valid digit. -/
lemma set_dot_run (o : Nat → EspErr) (digit : Int) (dot_on : Bool)
    (s : DriverState) (h0 : 0 ≤ digit) (h7 : digit ≤ 7) :
    ftb8md_set_dot o (some ()) digit dot_on s =
      (o s.txCount,
       ⟨s.events ++ [Event.txPacket
          [adramByte1 digit.toNat, if dot_on then 1 else 0]], s.txCount + 1⟩) := by
  have hcond : ¬(digit < 0 ∨ ((FTB8MD_NUM_DIGITS : Nat) : Int) ≤ digit) := by
    unfold FTB8MD_NUM_DIGITS
    push_cast
    omega
  cases dot_on <;>
    simp [ftb8md_set_dot, ftb8md_send_command, spi_device_transmit,
      adramByte2, hcond, List.take]

/-- Behaviour of ftb8md_set_segment on a non-null handle and valid digit. -/
lemma set_segment_run (o : Nat → EspErr) (digit : Int) (segments : Nat)
    (s : DriverState) (h0 : 0 ≤ digit) (h7 : digit ≤ 7) :
    ftb8md_set_segment o (some ()) digit segments s =
      (o s.txCount,
       ⟨s.events ++ [Event.txPacket [dcramByte1 digit.toNat, segments]],
        s.txCount + 1⟩) := by
  have hcond : ¬(digit < 0 ∨ ((FTB8MD_NUM_DIGITS : Nat) : Int) ≤ digit) := by
    unfold FTB8MD_NUM_DIGITS
    push_cast
    omega
  simp [ftb8md_set_segment, ftb8md_send_command, spi_device_transmit,
    hcond, List.take]

/-- Behaviour of ftb8md_set_addressed_char on a non-null handle and valid
arguments. -/
lemma set_addressed_char_run (o : Nat → EspErr) (digit ci : Int)
    (s : DriverState) (h0 : 0 ≤ digit) (h7 : digit ≤ 7)
    (hc0 : 0 ≤ ci) (hc7 : ci ≤ 7) :
    ftb8md_set_addressed_char o (some ()) digit ci s =
      (o s.txCount,
       ⟨s.events ++ [Event.txPacket [dcramByte1 digit.toNat, ci.toNat]],
        s.txCount + 1⟩) := by
  have hcond : ¬(digit < 0 ∨ ((FTB8MD_NUM_DIGITS : Nat) : Int) ≤ digit) := by
    unfold FTB8MD_NUM_DIGITS
    push_cast
    omega
  have hccond : ¬(ci < 0 ∨ 7 < ci) := by omega
  have hmod : ci.toNat % 256 = ci.toNat := Nat.mod_eq_of_lt (by omega)
  simp [ftb8md_set_addressed_char, ftb8md_send_command, spi_device_transmit,
    hcond, hccond, hmod, List.take]

/-- Behaviour of ftb8md_write_custom_char on a non-null handle, valid slot
index and a 5-byte pattern. -/
lemma write_custom_char_run (o : Nat → EspErr) (ci : Int) (p : List Nat)
    (s : DriverState) (hc0 : 0 ≤ ci) (hc7 : ci ≤ 7) (hp : p.length = 5) :
    ftb8md_write_custom_char o (some ()) ci (some p) s =
      (o s.txCount,
       ⟨s.events ++ [Event.txPacket (cgramByte1 ci.toNat :: p)],
        s.txCount + 1⟩) := by
  have hccond : ¬(ci < 0 ∨ 7 < ci) := by omega
  have hm : (5 : Nat) ≤ p.length := by omega
  have htake : (cgramByte1 ci.toNat :: (p.take 5 ++ List.replicate 3 0)).take 6
      = cgramByte1 ci.toNat :: p := by
    rw [show (6 : Nat) = 1 + 5 from rfl, raw_take_dcram _ _ _ _ hm]
    rw [← hp, List.take_length]
  simp only [ftb8md_write_custom_char, ftb8md_send_command, spi_device_transmit,
    Option.getD_some, hccond, if_false]
  rw [htake]
  simp

lemma take_two (a b : Nat) (l : List Nat) : (a :: b :: l).take 2 = [a, b] := rfl

lemma ofNat_toNat (i : Nat) : (Int.ofNat i).toNat = i := rfl

lemma take_nine_clear :
    (dcramByte1 0 :: List.replicate FTB8MD_NUM_DIGITS 0x20).take
      (1 + FTB8MD_NUM_DIGITS) = dcramByte1 0 :: List.replicate 8 0x20 := rfl

/-- Specialisation of set_dot_run to the dot-off case. -/
lemma set_dot_run_false (o : Nat → EspErr) (digit : Int) (s : DriverState)
    (h0 : 0 ≤ digit) (h7 : digit ≤ 7) :
    ftb8md_set_dot o (some ()) digit false s =
      (o s.txCount,
       ⟨s.events ++ [Event.txPacket [adramByte1 digit.toNat, 0]],
        s.txCount + 1⟩) := by
  rw [set_dot_run o digit false s h0 h7]
  rfl

/-- Behaviour of the dot-off loop when every transmission succeeds. -/
lemma clearDotsLoop_ok (o : Nat → EspErr) (l : List Nat) (s : DriverState)
    (hl : ∀ i ∈ l, i < 8) (ho : ∀ n, o n = EspErr.ok) :
    clearDotsLoop o (some ()) l s =
      (EspErr.ok,
       ⟨s.events ++ l.map (fun i => Event.txPacket [adramByte1 i, 0]),
        s.txCount + l.length⟩) := by
  induction l generalizing s with
  | nil => simp [clearDotsLoop]
  | cons i rest ih =>
    have hi : i < 8 := hl i (by simp)
    have hi0 : (0 : Int) ≤ Int.ofNat i := Int.ofNat_nonneg i
    have hi7 : (Int.ofNat i : Int) ≤ 7 := by
      rw [Int.ofNat_eq_natCast]
      omega
    simp only [clearDotsLoop]
    rw [set_dot_run_false o (Int.ofNat i) s hi0 hi7]
    simp only [ho, ne_eq, not_true_eq_false, if_false]
    rw [ih _ (fun j hj => hl j (by simp [hj]))]
    simp only [ofNat_toNat, List.map_cons, List.append_assoc,
      List.cons_append, List.nil_append, List.length_cons,
      Prod.mk.injEq, DriverState.mk.injEq, true_and, and_true,
      eq_self_iff_true]
    omega

/-- ftb8md_clear_display on a non-null handle, reduced past the text-clear
transmission. -/
lemma clear_display_head (o : Nat → EspErr) (s : DriverState) :
    ftb8md_clear_display o (some ()) s =
      (if o s.txCount ≠ EspErr.ok then
        (o s.txCount,
         ⟨s.events ++ [Event.txPacket (dcramByte1 0 :: List.replicate 8 0x20)],
          s.txCount + 1⟩)
      else clearDotsLoop o (some ()) (List.range 8)
        ⟨s.events ++ [Event.txPacket (dcramByte1 0 :: List.replicate 8 0x20)],
         s.txCount + 1⟩) := by
  rfl

lemma txPayloads_nil : txPayloads [] = [] := rfl

lemma txPayloads_tx (p : List Nat) (evs : List Event) :
    txPayloads (Event.txPacket p :: evs) = p :: txPayloads evs := rfl

lemma txPayloads_gpioConfigure (pin : Int) (evs : List Event) :
    txPayloads (Event.gpioConfigure pin :: evs) = txPayloads evs := rfl

lemma txPayloads_busAddDevice (evs : List Event) :
    txPayloads (Event.busAddDevice :: evs) = txPayloads evs := rfl

lemma txPayloads_gpioSetLevel (pin : Int) (lv : Nat) (evs : List Event) :
    txPayloads (Event.gpioSetLevel pin lv :: evs) = txPayloads evs := rfl

lemma txPayloads_delayMs (ms : Nat) (evs : List Event) :
    txPayloads (Event.delayMs ms :: evs) = txPayloads evs := rfl

lemma txPayloads_append (l1 l2 : List Event) :
    txPayloads (l1 ++ l2) = txPayloads l1 ++ txPayloads l2 :=
  List.filterMap_append l1 l2 _

/-- Every packet handed to the transport by the dot-off loop fits the
9-byte command buffer. -/
lemma clearDotsLoop_packets (o : Nat → EspErr) (l : List Nat)
    (s : DriverState) (hl : ∀ i ∈ l, i < 8) :
    ∃ evs, (clearDotsLoop o (some ()) l s).2.events = s.events ++ evs ∧
      ∀ pkt ∈ txPayloads evs, pkt.length ≤ 9 := by
  induction l generalizing s with
  | nil => exact ⟨[], by simp [clearDotsLoop], by simp [txPayloads_nil]⟩
  | cons i rest ih =>
    have hi : i < 8 := hl i (by simp)
    have hi0 : (0 : Int) ≤ Int.ofNat i := Int.ofNat_nonneg i
    have hi7 : (Int.ofNat i : Int) ≤ 7 := by
      rw [Int.ofNat_eq_natCast]
      omega
    simp only [clearDotsLoop]
    rw [set_dot_run_false o (Int.ofNat i) s hi0 hi7]
    by_cases ho : o s.txCount = EspErr.ok
    · simp only [ho, ne_eq, not_true_eq_false, if_false]
      obtain ⟨evs, hevs, hlen⟩ :=
        ih ⟨s.events ++ [Event.txPacket [adramByte1 (Int.ofNat i).toNat, 0]],
          s.txCount + 1⟩ (fun j hj => hl j (by simp [hj]))
      refine ⟨Event.txPacket [adramByte1 (Int.ofNat i).toNat, 0] :: evs, ?_, ?_⟩
      · rw [hevs]
        simp
      · intro pkt hp
        rw [txPayloads_tx] at hp
        rcases List.mem_cons.mp hp with h | h
        · subst h
          simp
        · exact hlen pkt h
    · simp only [ne_eq, ho, not_false_eq_true, if_true]
      refine ⟨[Event.txPacket [adramByte1 (Int.ofNat i).toNat, 0]], by simp, ?_⟩
      intro pkt hp
      rw [txPayloads_tx] at hp
      rcases List.mem_cons.mp hp with h | h
      · subst h
        simp
      · simp [txPayloads_nil] at h

/-- Behaviour of the registration tail when binding succeeds: three 2-byte
control packets are transmitted whatever the transmission oracle says. -/
lemma registerAfterReset_ok_run (env : RegisterEnv) (s : DriverState)
    (hb : env.bus_add_result = EspErr.ok) :
    registerAfterReset env s =
      (some (), ⟨s.events ++ [Event.busAddDevice,
        Event.txPacket [CMD_DIGIT_SET, FTB8MD_NUM_DIGITS - 1],
        Event.txPacket [CMD_DIMMING, FTB8MD_MAX_DIMMING],
        Event.txPacket [CMD_DISPLAY_ON, FTB8MD_NUM_DIGITS - 1]],
        s.txCount + 3⟩) := by
  simp [registerAfterReset, ftb8md_send_command, ftb8md_set_dimming,
    spi_device_transmit, hb, take_two, FTB8MD_MAX_DIMMING]

/-- Every packet handed to the transport by the registration tail fits the
9-byte command buffer. -/
lemma registerAfterReset_packets (env : RegisterEnv) (s : DriverState) :
    ∃ evs, (registerAfterReset env s).2.events = s.events ++ evs ∧
      ∀ pkt ∈ txPayloads evs, pkt.length ≤ 9 := by
  by_cases hb : env.bus_add_result = EspErr.ok
  · rw [registerAfterReset_ok_run env s hb]
    refine ⟨[Event.busAddDevice,
      Event.txPacket [CMD_DIGIT_SET, FTB8MD_NUM_DIGITS - 1],
      Event.txPacket [CMD_DIMMING, FTB8MD_MAX_DIMMING],
      Event.txPacket [CMD_DISPLAY_ON, FTB8MD_NUM_DIGITS - 1]], rfl, ?_⟩
    intro pkt hp
    rw [txPayloads_busAddDevice, txPayloads_tx, txPayloads_tx,
      txPayloads_tx, txPayloads_nil] at hp
    simp only [List.mem_cons, List.not_mem_nil, or_false] at hp
    rcases hp with h | h | h <;> subst h <;> decide
  · unfold registerAfterReset
    rw [if_pos hb]
    exact ⟨[Event.busAddDevice], rfl,
      by simp [txPayloads_busAddDevice, txPayloads_nil]⟩

/-! Claim theorems. -/

/-- C2: Registration with a connected reset pin and successful
collaborators performs, in order: reset low, a 10 ms delay, reset high, a
10 ms delay, the SPI device binding, then exactly three 2-byte control
transmissions (digit count 8 encoded as argument 7, dimming at the device
maximum 240, display-on) before returning a non-null handle; no bus
traffic precedes the reset pulse. -/
theorem C2_register_sequence (env : RegisterEnv) (rp : Int) (s : DriverState)
    (hrp : 0 ≤ rp) (hg : env.gpio_config_result = EspErr.ok)
    (hb : env.bus_add_result = EspErr.ok) (htx : ∀ n, env.tx n = EspErr.ok) :
    ftb8md_device_register env rp s =
      (some (), ⟨s.events ++ [Event.gpioConfigure rp, Event.gpioSetLevel rp 0,
        Event.delayMs 10, Event.gpioSetLevel rp 1, Event.delayMs 10,
        Event.busAddDevice,
        Event.txPacket [CMD_DIGIT_SET, FTB8MD_NUM_DIGITS - 1],
        Event.txPacket [CMD_DIMMING, FTB8MD_MAX_DIMMING],
        Event.txPacket [CMD_DISPLAY_ON, FTB8MD_NUM_DIGITS - 1]],
        s.txCount + 3⟩) := by
  unfold ftb8md_device_register registerAfterReset
  rw [if_pos hrp]
  simp [ftb8md_send_command, ftb8md_set_dimming, spi_device_transmit,
    hg, hb, take_two, FTB8MD_MAX_DIMMING]

/-- Witness for C2 with reset pin 5 and an all-ok environment. -/
theorem C2_register_sequence_witness :
    (0 : Int) ≤ 5 ∧
    ftb8md_device_register ⟨EspErr.ok, EspErr.ok, fun _ => EspErr.ok⟩ 5 ⟨[], 0⟩ =
      (some (), ⟨[Event.gpioConfigure 5, Event.gpioSetLevel 5 0,
        Event.delayMs 10, Event.gpioSetLevel 5 1, Event.delayMs 10,
        Event.busAddDevice,
        Event.txPacket [CMD_DIGIT_SET, FTB8MD_NUM_DIGITS - 1],
        Event.txPacket [CMD_DIMMING, FTB8MD_MAX_DIMMING],
        Event.txPacket [CMD_DISPLAY_ON, FTB8MD_NUM_DIGITS - 1]], 3⟩) := by
  have h := C2_register_sequence ⟨EspErr.ok, EspErr.ok, fun _ => EspErr.ok⟩ 5
    ⟨[], 0⟩ (by decide) rfl rfl (fun _ => rfl)
  refine ⟨by decide, ?_⟩
  rw [h]
  decide

/-- C3 counterexample: with a transport that fails exactly the 4th
transmission attempt (the 3rd dot-off), ftb8md_clear_display returns that
failure, but 4 packets were handed to the transport, not 3: the text
clear, two successful dot-offs, and the failing 3rd dot-off. -/
theorem C3_clear_display_counterexample :
    (ftb8md_clear_display
        (fun n => if n = 3 then EspErr.transportFail 1 else EspErr.ok)
        (some ()) ⟨[], 0⟩).1 = EspErr.transportFail 1 ∧
    (ftb8md_clear_display
        (fun n => if n = 3 then EspErr.transportFail 1 else EspErr.ok)
        (some ()) ⟨[], 0⟩).2.txCount = 4 ∧
    ¬ (ftb8md_clear_display
        (fun n => if n = 3 then EspErr.transportFail 1 else EspErr.ok)
        (some ()) ⟨[], 0⟩).2.txCount = 3 := by
  decide

/-- C3 (amended): on a non-null handle, when every transmission succeeds
clear issues exactly 9 transmissions (one DCRAM packet of 8 spaces at
digit 0, then 8 dot-off ADRAM packets in digit order); when the 3rd
dot-off fails the failure is returned immediately, exactly 4 packets
having been handed to the transport (text clear and first two dot-offs
succeeded, the 3rd dot-off failed) and the remaining dot-offs are never
attempted. -/
theorem C3_clear_display_transmissions (o : Nat → EspErr) (s : DriverState) :
    ((∀ n, o n = EspErr.ok) →
      ftb8md_clear_display o (some ()) s =
        (EspErr.ok, ⟨s.events ++
          [Event.txPacket (dcramByte1 0 :: List.replicate 8 0x20),
           Event.txPacket [adramByte1 0, 0], Event.txPacket [adramByte1 1, 0],
           Event.txPacket [adramByte1 2, 0], Event.txPacket [adramByte1 3, 0],
           Event.txPacket [adramByte1 4, 0], Event.txPacket [adramByte1 5, 0],
           Event.txPacket [adramByte1 6, 0], Event.txPacket [adramByte1 7, 0]],
          s.txCount + 9⟩)) ∧
    (∀ e, e ≠ EspErr.ok → o s.txCount = EspErr.ok →
      o (s.txCount + 1) = EspErr.ok → o (s.txCount + 2) = EspErr.ok →
      o (s.txCount + 3) = e →
      ftb8md_clear_display o (some ()) s =
        (e, ⟨s.events ++
          [Event.txPacket (dcramByte1 0 :: List.replicate 8 0x20),
           Event.txPacket [adramByte1 0, 0], Event.txPacket [adramByte1 1, 0],
           Event.txPacket [adramByte1 2, 0]],
          s.txCount + 4⟩)) := by
  constructor
  · intro ho
    rw [clear_display_head, if_neg (by simp [ho])]
    rw [clearDotsLoop_ok o (List.range 8) _ (fun i hi => List.mem_range.mp hi) ho]
    rw [show (List.range 8).map (fun i => Event.txPacket [adramByte1 i, 0]) =
      [Event.txPacket [adramByte1 0, 0], Event.txPacket [adramByte1 1, 0],
       Event.txPacket [adramByte1 2, 0], Event.txPacket [adramByte1 3, 0],
       Event.txPacket [adramByte1 4, 0], Event.txPacket [adramByte1 5, 0],
       Event.txPacket [adramByte1 6, 0], Event.txPacket [adramByte1 7, 0]]
      from rfl]
    simp only [List.append_assoc, List.cons_append, List.nil_append,
      List.length_range, Prod.mk.injEq, DriverState.mk.injEq, true_and,
      and_true, eq_self_iff_true]
  · intro e he h0 h1 h2 h3
    rw [clear_display_head, if_neg (by simp [h0])]
    rw [show List.range 8 = [0, 1, 2, 3, 4, 5, 6, 7] from rfl]
    simp only [clearDotsLoop]
    rw [set_dot_run_false o (Int.ofNat 0) _ (by decide) (by decide)]
    simp only [ne_eq, h1, eq_self_iff_true, not_true_eq_false, if_false]
    rw [set_dot_run_false o (Int.ofNat 1) _ (by decide) (by decide)]
    simp only [ne_eq, h2, eq_self_iff_true, not_true_eq_false, if_false]
    rw [set_dot_run_false o (Int.ofNat 2) _ (by decide) (by decide)]
    simp only [ne_eq, h3, he, not_false_eq_true, if_true]
    simp only [ofNat_toNat, List.append_assoc, List.cons_append,
      List.nil_append, Prod.mk.injEq, DriverState.mk.injEq, true_and,
      and_true, eq_self_iff_true]

/-- Witness for C3: the all-ok run from the empty trace, and the run whose
4th transmission fails. -/
theorem C3_clear_display_transmissions_witness :
    ftb8md_clear_display (fun _ => EspErr.ok) (some ()) ⟨[], 0⟩ =
      (EspErr.ok, ⟨[Event.txPacket (dcramByte1 0 :: List.replicate 8 0x20),
        Event.txPacket [adramByte1 0, 0], Event.txPacket [adramByte1 1, 0],
        Event.txPacket [adramByte1 2, 0], Event.txPacket [adramByte1 3, 0],
        Event.txPacket [adramByte1 4, 0], Event.txPacket [adramByte1 5, 0],
        Event.txPacket [adramByte1 6, 0], Event.txPacket [adramByte1 7, 0]],
        9⟩) ∧
    ftb8md_clear_display
        (fun n => if n = 3 then EspErr.transportFail 2 else EspErr.ok)
        (some ()) ⟨[], 0⟩ =
      (EspErr.transportFail 2,
       ⟨[Event.txPacket (dcramByte1 0 :: List.replicate 8 0x20),
         Event.txPacket [adramByte1 0, 0], Event.txPacket [adramByte1 1, 0],
         Event.txPacket [adramByte1 2, 0]], 4⟩) := by
  constructor
  · have h := (C3_clear_display_transmissions (fun _ => EspErr.ok) ⟨[], 0⟩).1
      (fun _ => rfl)
    rw [h]
    decide
  · have h := (C3_clear_display_transmissions
        (fun n => if n = 3 then EspErr.transportFail 2 else EspErr.ok)
        ⟨[], 0⟩).2 (EspErr.transportFail 2) (by decide) (by decide) (by decide)
        (by decide) (by decide)
    rw [h]
    decide

/-- C9: Registration returns no usable handle when binding the SPI device
fails, but a transmission failure in any default-configuration step never
aborts registration: the handle is still returned whatever the
transmission oracle answers. Every other public operation propagates the
transport verdict verbatim, so the configuration leniency is the only
place a collaborator error is not returned to the caller. -/
theorem C9_register_error_policy (env : RegisterEnv) (rp : Int)
    (s : DriverState) (o : Nat → EspErr) (digit ci : Int)
    (str p : List Nat) (level seg : Nat) (b sb pw : Bool)
    (hg : env.gpio_config_result = EspErr.ok)
    (h0 : 0 ≤ digit) (h7 : digit ≤ 7) (hc0 : 0 ≤ ci) (hc7 : ci ≤ 7)
    (hp : p.length = 5) :
    (env.bus_add_result ≠ EspErr.ok →
      (ftb8md_device_register env rp s).1 = none) ∧
    (env.bus_add_result = EspErr.ok →
      (ftb8md_device_register env rp s).1 = some ()) ∧
    (ftb8md_show_string o (some ()) digit (some str) s).1 = o s.txCount ∧
    (ftb8md_set_dimming o (some ()) level s).1 = o s.txCount ∧
    (ftb8md_enter_standby o (some ()) sb s).1 = o s.txCount ∧
    (ftb8md_set_display_power o (some ()) pw s).1 = o s.txCount ∧
    (ftb8md_set_dot o (some ()) digit b s).1 = o s.txCount ∧
    (ftb8md_set_segment o (some ()) digit seg s).1 = o s.txCount ∧
    (ftb8md_write_custom_char o (some ()) ci (some p) s).1 = o s.txCount ∧
    (ftb8md_set_addressed_char o (some ()) digit ci s).1 = o s.txCount := by
  refine ⟨?_, ?_, ?_, ?_, ?_, ?_, ?_, ?_, ?_, ?_⟩
  · intro hb
    unfold ftb8md_device_register registerAfterReset
    by_cases hrp : 0 ≤ rp <;> simp [hrp, hg, hb]
  · intro hb
    unfold ftb8md_device_register registerAfterReset
    by_cases hrp : 0 ≤ rp <;>
      simp [hrp, hg, hb, ftb8md_send_command, ftb8md_set_dimming,
        spi_device_transmit]
  · rw [show_string_run o digit str s h0 h7]
  · rw [set_dimming_run]
  · rw [enter_standby_run]
  · rw [set_display_power_run]
  · rw [set_dot_run o digit b s h0 h7]
  · rw [set_segment_run o digit seg s h0 h7]
  · rw [write_custom_char_run o ci p s hc0 hc7 hp]
  · rw [set_addressed_char_run o digit ci s h0 h7 hc0 hc7]

/-- Witness for C9: a bind failure yields no handle; a bind success with a
transport that always fails still yields a handle; a failing transport
verdict is returned verbatim by show_string. -/
theorem C9_register_error_policy_witness :
    (ftb8md_device_register
        ⟨EspErr.ok, EspErr.transportFail 1, fun _ => EspErr.ok⟩ 5 ⟨[], 0⟩).1 =
      none ∧
    (ftb8md_device_register
        ⟨EspErr.ok, EspErr.ok, fun _ => EspErr.transportFail 7⟩ 5 ⟨[], 0⟩).1 =
      some () ∧
    (ftb8md_show_string (fun _ => EspErr.transportFail 9) (some ()) 0
        (some [65]) ⟨[], 0⟩).1 = EspErr.transportFail 9 := by
  have h1 := C9_register_error_policy
    ⟨EspErr.ok, EspErr.transportFail 1, fun _ => EspErr.ok⟩ 5 ⟨[], 0⟩
    (fun _ => EspErr.ok) 0 0 [65] [0, 0, 0, 0, 0] 0 0 true true true rfl
    (by decide) (by decide) (by decide) (by decide) (by decide)
  have h2 := C9_register_error_policy
    ⟨EspErr.ok, EspErr.ok, fun _ => EspErr.transportFail 7⟩ 5 ⟨[], 0⟩
    (fun _ => EspErr.transportFail 9) 0 0 [65] [0, 0, 0, 0, 0] 0 0 true true
    true rfl (by decide) (by decide) (by decide) (by decide) (by decide)
  exact ⟨h1.1 (by decide), h2.2.1 rfl, h2.2.2.1⟩

/-- C4: For every digit outside [0,7], each digit-taking public operation
(show_string, set_dot, set_segment, set_addressed_char) returns
InvalidArgument and leaves the state untouched: no transmission happens,
so no partial write can result from a call that fails validation. -/
theorem C4_invalid_digit_rejected (o : Nat → EspErr) (s : DriverState)
    (digit : Int) (h : digit < 0 ∨ 7 < digit) :
    (∀ str, ftb8md_show_string o (some ()) digit (some str) s =
      (EspErr.invalidArg, s)) ∧
    (∀ b, ftb8md_set_dot o (some ()) digit b s = (EspErr.invalidArg, s)) ∧
    (∀ seg, ftb8md_set_segment o (some ()) digit seg s =
      (EspErr.invalidArg, s)) ∧
    (∀ ci, ftb8md_set_addressed_char o (some ()) digit ci s =
      (EspErr.invalidArg, s)) := by
  have h8 : digit < 0 ∨ ((FTB8MD_NUM_DIGITS : Nat) : Int) ≤ digit := by
    unfold FTB8MD_NUM_DIGITS
    push_cast
    omega
  refine ⟨fun str => ?_, fun b => ?_, fun seg => ?_, fun ci => ?_⟩
  · unfold ftb8md_show_string
    rw [if_neg (by simp), if_pos h8]
  · unfold ftb8md_set_dot
    rw [if_neg (by simp), if_pos h8]
  · unfold ftb8md_set_segment
    rw [if_neg (by simp), if_pos h8]
  · unfold ftb8md_set_addressed_char
    rw [if_neg (by simp), if_pos h8]

/-- Witness for C4 at digit 8. -/
theorem C4_invalid_digit_rejected_witness :
    ((8 : Int) < 0 ∨ 7 < (8 : Int)) ∧
    ftb8md_show_string (fun _ => EspErr.ok) (some ()) 8 (some [65]) ⟨[], 0⟩ =
      (EspErr.invalidArg, ⟨[], 0⟩) ∧
    ftb8md_set_dot (fun _ => EspErr.ok) (some ()) 8 true ⟨[], 0⟩ =
      (EspErr.invalidArg, ⟨[], 0⟩) ∧
    ftb8md_set_segment (fun _ => EspErr.ok) (some ()) 8 0 ⟨[], 0⟩ =
      (EspErr.invalidArg, ⟨[], 0⟩) ∧
    ftb8md_set_addressed_char (fun _ => EspErr.ok) (some ()) 8 0 ⟨[], 0⟩ =
      (EspErr.invalidArg, ⟨[], 0⟩) := by
  have h := C4_invalid_digit_rejected (fun _ => EspErr.ok) ⟨[], 0⟩ 8 (by decide)
  exact ⟨by decide, h.1 [65], h.2.1 true, h.2.2.1 0, h.2.2.2 0⟩

/-- C1: For every digit in [0,7] and every string of length L,
ftb8md_show_string on a non-null handle transmits exactly one packet of
length 1 + min(L, 8-digit) whose first byte carries the DCRAM code 0b001
in bits 5-7 and the digit in bits 0-4, and whose payload is the first
min(L, 8-digit) bytes of the string verbatim; characters beyond 8-digit
are silently dropped and the returned value is exactly the transport's
verdict, so truncation never causes a failure. -/
theorem C1_show_string_truncation (o : Nat → EspErr) (digit : Int)
    (str : List Nat) (s : DriverState) (h0 : 0 ≤ digit) (h7 : digit ≤ 7) :
    (ftb8md_show_string o (some ()) digit (some str) s).2.events =
      s.events ++ [Event.txPacket (dcramByte1 digit.toNat ::
        str.take (min str.length (8 - digit.toNat)))] ∧
    (dcramByte1 digit.toNat ::
        str.take (min str.length (8 - digit.toNat))).length =
      1 + min str.length (8 - digit.toNat) ∧
    dcramByte1 digit.toNat / 32 = CMD_PFX_DCRAM ∧
    dcramByte1 digit.toNat % 32 = digit.toNat ∧
    (ftb8md_show_string o (some ()) digit (some str) s).1 = o s.txCount := by
  have hrun := show_string_run o digit str s h0 h7
  have hd : digit.toNat ≤ 7 := by omega
  refine ⟨by rw [hrun], ?_, ?_, ?_, by rw [hrun]⟩
  · simp only [List.length_cons, List.length_take]
    omega
  · unfold dcramByte1 CMD_PFX_DCRAM
    omega
  · unfold dcramByte1 CMD_PFX_DCRAM
    omega

/-- Witness for C1: showing the 5-byte string HELLO at digit 6 transmits
the 3-byte packet 0x26 H E and succeeds. -/
theorem C1_show_string_truncation_witness :
    (0 : Int) ≤ 6 ∧ (6 : Int) ≤ 7 ∧
    (ftb8md_show_string (fun _ => EspErr.ok) (some ()) 6
        (some [72, 69, 76, 76, 79]) ⟨[], 0⟩).2.events =
      [Event.txPacket [38, 72, 69]] ∧
    (ftb8md_show_string (fun _ => EspErr.ok) (some ()) 6
        (some [72, 69, 76, 76, 79]) ⟨[], 0⟩).1 = EspErr.ok := by
  have h := C1_show_string_truncation (fun _ => EspErr.ok) 6 [72, 69, 76, 76, 79]
    ⟨[], 0⟩ (by decide) (by decide)
  refine ⟨by decide, by decide, ?_, ?_⟩
  · rw [h.1]
    decide
  · rw [h.2.2.2.2]

/-- C5: For every level above the device maximum 240 (within the uint8
range), ftb8md_set_dimming behaves identically to level 240 and transmits
the 2-byte packet 0xE4 240: the input is saturated, never rejected. -/
theorem C5_dimming_saturation (o : Nat → EspErr) (s : DriverState)
    (level : Nat) (h240 : 240 < level) (h255 : level ≤ 255) :
    ftb8md_set_dimming o (some ()) level s =
      ftb8md_set_dimming o (some ()) 240 s ∧
    (ftb8md_set_dimming o (some ()) level s).2.events =
      s.events ++ [Event.txPacket [CMD_DIMMING, FTB8MD_MAX_DIMMING]] := by
  constructor
  · rw [set_dimming_run, set_dimming_run]
    simp [FTB8MD_MAX_DIMMING, h240]
  · rw [set_dimming_run]
    simp [FTB8MD_MAX_DIMMING, h240]

/-- Witness for C5 at level 255. -/
theorem C5_dimming_saturation_witness :
    240 < 255 ∧ 255 ≤ 255 ∧
    ftb8md_set_dimming (fun _ => EspErr.ok) (some ()) 255 ⟨[], 0⟩ =
      ftb8md_set_dimming (fun _ => EspErr.ok) (some ()) 240 ⟨[], 0⟩ :=
  ⟨by decide, by decide,
    (C5_dimming_saturation (fun _ => EspErr.ok) ⟨[], 0⟩ 255
      (by decide) (by decide)).1⟩

/-- C6: For every slot index in [0,7] and 5-byte pattern, the CGRAM packet
transmitted by ftb8md_write_custom_char is a fixed 6-byte packet that
round-trips: bits 0-2 of its first byte recover the index and its 5
payload bytes are the pattern verbatim (bit 7 included, unvalidated). -/
theorem C6_cgram_roundtrip (o : Nat → EspErr) (s : DriverState)
    (ci : Int) (p : List Nat) (hc0 : 0 ≤ ci) (hc7 : ci ≤ 7)
    (hp : p.length = 5) :
    (ftb8md_write_custom_char o (some ()) ci (some p) s).2.events =
      s.events ++ [Event.txPacket (cgramByte1 ci.toNat :: p)] ∧
    (cgramByte1 ci.toNat :: p).length = 6 ∧
    cgramDecodeIndex (cgramByte1 ci.toNat :: p) = ci.toNat ∧
    cgramDecodePattern (cgramByte1 ci.toNat :: p) = p := by
  have hrun := write_custom_char_run o ci p s hc0 hc7 hp
  have hd : ci.toNat ≤ 7 := by omega
  refine ⟨by rw [hrun], ?_, ?_, ?_⟩
  · simp [hp]
  · unfold cgramDecodeIndex cgramByte1 CMD_PFX_CGRAM
    simp only [List.headD_cons]
    omega
  · unfold cgramDecodePattern
    simp only [List.drop_succ_cons, List.drop_zero]
    rw [← hp, List.take_length]

/-- Witness for C6 at slot 3 and a pattern whose last byte has bit 7 set. -/
theorem C6_cgram_roundtrip_witness :
    (0 : Int) ≤ 3 ∧ (3 : Int) ≤ 7 ∧ ([1, 2, 3, 4, 255] : List Nat).length = 5 ∧
    (ftb8md_write_custom_char (fun _ => EspErr.ok) (some ()) 3
        (some [1, 2, 3, 4, 255]) ⟨[], 0⟩).2.events =
      [Event.txPacket [67, 1, 2, 3, 4, 255]] ∧
    cgramDecodeIndex [67, 1, 2, 3, 4, 255] = 3 ∧
    cgramDecodePattern [67, 1, 2, 3, 4, 255] = [1, 2, 3, 4, 255] := by
  have h := C6_cgram_roundtrip (fun _ => EspErr.ok) ⟨[], 0⟩ 3 [1, 2, 3, 4, 255]
    (by decide) (by decide) (by decide)
  refine ⟨by decide, by decide, by decide, ?_, by decide, by decide⟩
  rw [h.1]
  decide

/-- C7: On a non-null handle, entering and leaving standby transmit two
distinct 2-byte control packets whose opcode bytes are the standby and
normal-mode commands respectively and whose argument byte is zero in
both; they differ only in the opcode byte. -/
theorem C7_standby_packets (o : Nat → EspErr) (s : DriverState) :
    (ftb8md_enter_standby o (some ()) true s).2.events =
      s.events ++ [Event.txPacket [CMD_MODE_STANDBY, 0]] ∧
    (ftb8md_enter_standby o (some ()) false s).2.events =
      s.events ++ [Event.txPacket [CMD_MODE_NORMAL, 0]] ∧
    CMD_MODE_STANDBY ≠ CMD_MODE_NORMAL := by
  refine ⟨?_, ?_, by decide⟩ <;> rw [enter_standby_run] <;> simp

/-- C10: For every digit and glyph index in [0,7],
ftb8md_set_addressed_char behaves identically to ftb8md_set_segment at the
same digit with the index as segment byte: both transmit the 2-byte DCRAM
packet whose payload byte is the index. -/
theorem C10_addressed_char_refines_segment (o : Nat → EspErr)
    (s : DriverState) (digit ci : Int) (h0 : 0 ≤ digit) (h7 : digit ≤ 7)
    (hc0 : 0 ≤ ci) (hc7 : ci ≤ 7) :
    ftb8md_set_addressed_char o (some ()) digit ci s =
      ftb8md_set_segment o (some ()) digit ci.toNat s ∧
    (ftb8md_set_addressed_char o (some ()) digit ci s).2.events =
      s.events ++ [Event.txPacket [dcramByte1 digit.toNat, ci.toNat]] := by
  rw [set_addressed_char_run o digit ci s h0 h7 hc0 hc7,
    set_segment_run o digit ci.toNat s h0 h7]
  exact ⟨rfl, rfl⟩

/-- Witness for C10 at digit 2 and glyph index 5. -/
theorem C10_addressed_char_refines_segment_witness :
    (0 : Int) ≤ 2 ∧ (2 : Int) ≤ 7 ∧ (0 : Int) ≤ 5 ∧ (5 : Int) ≤ 7 ∧
    ftb8md_set_addressed_char (fun _ => EspErr.ok) (some ()) 2 5 ⟨[], 0⟩ =
      ftb8md_set_segment (fun _ => EspErr.ok) (some ()) 2 (5 : Int).toNat ⟨[], 0⟩ :=
  ⟨by decide, by decide, by decide, by decide,
    (C10_addressed_char_refines_segment (fun _ => EspErr.ok) ⟨[], 0⟩ 2 5
      (by decide) (by decide) (by decide) (by decide)).1⟩

/-- C8: For every public operation called with valid arguments, every
packet handed to the transport is at most 9 bytes long, and the number of
bytes transmitted is 1 plus the payload actually used: a DCRAM text write
hands over 1 + min(L, 8-digit) bytes, a custom-character write exactly 6,
never the full 9-byte buffer unless the payload fills it. -/
theorem C8_packet_size_invariant (o : Nat → EspErr) (s : DriverState)
    (env : RegisterEnv) (rp : Int) (digit ci : Int) (str p : List Nat)
    (level seg : Nat) (b sb pw : Bool)
    (h0 : 0 ≤ digit) (h7 : digit ≤ 7) (hc0 : 0 ≤ ci) (hc7 : ci ≤ 7)
    (hp : p.length = 5) :
    (∀ pkt ∈ sentPackets s
        (ftb8md_show_string o (some ()) digit (some str) s).2,
      pkt.length = 1 + min str.length (8 - digit.toNat) ∧ pkt.length ≤ 9) ∧
    (∀ pkt ∈ sentPackets s (ftb8md_set_dimming o (some ()) level s).2,
      pkt.length ≤ 9) ∧
    (∀ pkt ∈ sentPackets s (ftb8md_enter_standby o (some ()) sb s).2,
      pkt.length ≤ 9) ∧
    (∀ pkt ∈ sentPackets s (ftb8md_set_display_power o (some ()) pw s).2,
      pkt.length ≤ 9) ∧
    (∀ pkt ∈ sentPackets s (ftb8md_set_dot o (some ()) digit b s).2,
      pkt.length ≤ 9) ∧
    (∀ pkt ∈ sentPackets s (ftb8md_set_segment o (some ()) digit seg s).2,
      pkt.length ≤ 9) ∧
    (∀ pkt ∈ sentPackets s
        (ftb8md_write_custom_char o (some ()) ci (some p) s).2,
      pkt.length = 6 ∧ pkt.length ≤ 9) ∧
    (∀ pkt ∈ sentPackets s
        (ftb8md_set_addressed_char o (some ()) digit ci s).2,
      pkt.length ≤ 9) ∧
    (∀ pkt ∈ sentPackets s (ftb8md_clear_display o (some ()) s).2,
      pkt.length ≤ 9) ∧
    (∀ pkt ∈ sentPackets s (ftb8md_device_register env rp s).2,
      pkt.length ≤ 9) := by
  refine ⟨?_, ?_, ?_, ?_, ?_, ?_, ?_, ?_, ?_, ?_⟩
  · rw [show_string_run o digit str s h0 h7]
    intro pkt hpk
    simp only [sentPackets_append, txPayloads_tx, txPayloads_nil,
      List.mem_cons, List.not_mem_nil, or_false] at hpk
    subst hpk
    simp only [List.length_cons, List.length_take]
    omega
  · rw [set_dimming_run]
    intro pkt hpk
    simp only [sentPackets_append, txPayloads_tx, txPayloads_nil,
      List.mem_cons, List.not_mem_nil, or_false] at hpk
    subst hpk
    simp
  · rw [enter_standby_run]
    intro pkt hpk
    simp only [sentPackets_append, txPayloads_tx, txPayloads_nil,
      List.mem_cons, List.not_mem_nil, or_false] at hpk
    subst hpk
    simp
  · rw [set_display_power_run]
    intro pkt hpk
    simp only [sentPackets_append, txPayloads_tx, txPayloads_nil,
      List.mem_cons, List.not_mem_nil, or_false] at hpk
    subst hpk
    simp
  · rw [set_dot_run o digit b s h0 h7]
    intro pkt hpk
    simp only [sentPackets_append, txPayloads_tx, txPayloads_nil,
      List.mem_cons, List.not_mem_nil, or_false] at hpk
    subst hpk
    simp
  · rw [set_segment_run o digit seg s h0 h7]
    intro pkt hpk
    simp only [sentPackets_append, txPayloads_tx, txPayloads_nil,
      List.mem_cons, List.not_mem_nil, or_false] at hpk
    subst hpk
    simp
  · rw [write_custom_char_run o ci p s hc0 hc7 hp]
    intro pkt hpk
    simp only [sentPackets_append, txPayloads_tx, txPayloads_nil,
      List.mem_cons, List.not_mem_nil, or_false] at hpk
    subst hpk
    simp [hp]
  · rw [set_addressed_char_run o digit ci s h0 h7 hc0 hc7]
    intro pkt hpk
    simp only [sentPackets_append, txPayloads_tx, txPayloads_nil,
      List.mem_cons, List.not_mem_nil, or_false] at hpk
    subst hpk
    simp
  · rw [clear_display_head]
    by_cases ho : o s.txCount ≠ EspErr.ok
    · rw [if_pos ho]
      intro pkt hpk
      simp only [sentPackets_append, txPayloads_tx, txPayloads_nil,
        List.mem_cons, List.not_mem_nil, or_false] at hpk
      subst hpk
      simp
    · rw [if_neg ho]
      obtain ⟨evs, hevs, hlen⟩ := clearDotsLoop_packets o (List.range 8)
        ⟨s.events ++
          [Event.txPacket (dcramByte1 0 :: List.replicate 8 0x20)],
          s.txCount + 1⟩ (fun i hi => List.mem_range.mp hi)
      intro pkt hpk
      have hsp : sentPackets s (clearDotsLoop o (some ()) (List.range 8)
          ⟨s.events ++
            [Event.txPacket (dcramByte1 0 :: List.replicate 8 0x20)],
            s.txCount + 1⟩).2 =
          txPayloads (Event.txPacket (dcramByte1 0 :: List.replicate 8 0x20)
            :: evs) := by
        unfold sentPackets
        rw [hevs]
        simp only [List.cons_append, List.nil_append, List.append_assoc]
        rw [List.drop_left]
      rw [hsp, txPayloads_tx] at hpk
      rcases List.mem_cons.mp hpk with h | h
      · subst h
        simp
      · exact hlen pkt h
  · unfold ftb8md_device_register
    by_cases hrp : 0 ≤ rp
    · rw [if_pos hrp]
      by_cases hgc : env.gpio_config_result ≠ EspErr.ok
      · rw [if_pos hgc]
        intro pkt hpk
        simp only [sentPackets_append, txPayloads_gpioConfigure,
          txPayloads_nil, List.not_mem_nil] at hpk
      · rw [if_neg hgc]
        obtain ⟨evs, hevs, hlen⟩ := registerAfterReset_packets env
          ⟨s.events ++ [Event.gpioConfigure rp, Event.gpioSetLevel rp 0,
            Event.delayMs 10, Event.gpioSetLevel rp 1, Event.delayMs 10],
            s.txCount⟩
        intro pkt hpk
        have hsp : sentPackets s (registerAfterReset env
            ⟨s.events ++ [Event.gpioConfigure rp, Event.gpioSetLevel rp 0,
              Event.delayMs 10, Event.gpioSetLevel rp 1, Event.delayMs 10],
              s.txCount⟩).2 =
            txPayloads ([Event.gpioConfigure rp, Event.gpioSetLevel rp 0,
              Event.delayMs 10, Event.gpioSetLevel rp 1, Event.delayMs 10]
              ++ evs) := by
          unfold sentPackets
          rw [hevs]
          simp only [List.append_assoc]
          rw [List.drop_left]
        simp only [List.append_assoc, List.cons_append, List.nil_append]
          at hpk
        rw [hsp, txPayloads_append, txPayloads_gpioConfigure,
          txPayloads_gpioSetLevel, txPayloads_delayMs,
          txPayloads_gpioSetLevel, txPayloads_delayMs, txPayloads_nil,
          List.nil_append] at hpk
        exact hlen pkt hpk
    · rw [if_neg hrp]
      obtain ⟨evs, hevs, hlen⟩ := registerAfterReset_packets env s
      intro pkt hpk
      have hsp : sentPackets s (registerAfterReset env s).2 =
          txPayloads evs := by
        unfold sentPackets
        rw [hevs, List.drop_left]
      rw [hsp] at hpk
      exact hlen pkt hpk

/-- Witness for C8 at digit 1, glyph 2, a 5-byte pattern, and an all-ok
transport starting from the empty trace. -/
theorem C8_packet_size_invariant_witness :
    (0 : Int) ≤ 1 ∧ (1 : Int) ≤ 7 ∧ (0 : Int) ≤ 2 ∧ (2 : Int) ≤ 7 ∧
    ([9, 9, 9, 9, 9] : List Nat).length = 5 ∧
    (∀ pkt ∈ sentPackets ⟨[], 0⟩
        (ftb8md_clear_display (fun _ => EspErr.ok) (some ()) ⟨[], 0⟩).2,
      pkt.length ≤ 9) := by
  have h := C8_packet_size_invariant (fun _ => EspErr.ok) ⟨[], 0⟩
    ⟨EspErr.ok, EspErr.ok, fun _ => EspErr.ok⟩ 5 1 2 [72] [9, 9, 9, 9, 9]
    0 0 true true true (by decide) (by decide) (by decide) (by decide)
    (by decide)
  exact ⟨by decide, by decide, by decide, by decide, by decide,
    h.2.2.2.2.2.2.2.2.1⟩

end Ftb8md
